import Mathlib

/-!
Shallow embedding of `app.py`: a Dash dashboard overlaying three geospatial
datasets (tombadas trees, tree census, conservation areas) with species
filtering, text search and a layer-visibility toggle.

The three tables are loaded from data files at process start; those files are
not part of the source tree, so every definition is parametric in the table
contents.  Coordinates are carried around but never computed with, so they are
modelled by `Int`; decimal constants appearing only as literals in the layout
are modelled by their decimal string.  Python `str.lower` is modelled by character-wise
`Char.toLower` (`pyLower`) and `str.strip` by dropping whitespace from both
ends (`pyStrip`); Python's stable comparison sort `sorted` is modelled by
`List.insertionSort`, which is stable and sorts.
-/

namespace GestaoInformacao

/-- A row of `arvores-tombadas.csv` (columns used by the app:
`nome_popular`, `familia`, `latitude`, `longitude`); a missing value is
`none` (pandas NaN). -/
structure TombRow where
  nome_popular : Option String
  familia : Option String
  latitude : Int
  longitude : Int
deriving DecidableEq, Repr

/-- A row of `censo_arboreo.geojson` after reprojection, with the derived
`longitude`/`latitude` columns taken from the point geometry. -/
structure CensoRow where
  nome_popul : Option String
  latitude : Int
  longitude : Int
deriving DecidableEq, Repr

/-- A row of `unidadesconservacaonatureza-ucn.geojson`; only the zone name is
observable in the traces the app builds (the polygon geometry is passed
through opaquely to plotly). -/
structure UcnRow where
  CDZONA_NOME : String
deriving DecidableEq, Repr

/-- Python `s.lower()`: character-wise case mapping. -/
def pyLower (s : String) : String :=
  String.mk (s.data.map Char.toLower)

/-- Python `s.strip()`: remove leading and trailing whitespace. -/
def pyStrip (s : String) : String :=
  String.mk
    (((s.data.dropWhile Char.isWhitespace).reverse.dropWhile
        Char.isWhitespace).reverse)

/-- `series.dropna().tolist()`: keep the present values, in order. -/
def dropna (l : List (Option String)) : List String :=
  l.filterMap id

/-- Worker for `pandasUnique`: `seen` is the set of exact values already
emitted. -/
def pandasUniqueAux : List String → List String → List String
  | _, [] => []
  | seen, x :: xs =>
    if x ∈ seen then pandasUniqueAux seen xs
    else x :: pandasUniqueAux (x :: seen) xs

/-- `series.unique().tolist()`: first-occurrence deduplication of the exact
(case-sensitive) values, preserving order. -/
def pandasUnique (l : List String) : List String :=
  pandasUniqueAux [] l

/-- `especies_tombadas = df['nome_popular'].dropna().unique().tolist()`. -/
def especies_tombadas (df : List TombRow) : List String :=
  pandasUnique (dropna (df.map (·.nome_popular)))

/-- `especies_censo = gdf_censo['nome_popul'].dropna().unique().tolist()`. -/
def especies_censo (censo : List CensoRow) : List String :=
  pandasUnique (dropna (censo.map (·.nome_popul)))

/-- All non-missing popular names of both sources, tombadas names first, in
table order — the raw merged name sequence the derived species list is built
from. -/
def allNames (df : List TombRow) (censo : List CensoRow) : List String :=
  dropna (df.map (·.nome_popular)) ++ dropna (censo.map (·.nome_popul))

/-- The loop building `species_list`: `seen` is the set `unique_species` of
lowercased names already emitted; an element is kept iff its lowercase form is
new. -/
def speciesListAux : List String → List String → List String
  | _, [] => []
  | seen, e :: rest =>
    if pyLower e ∈ seen then speciesListAux seen rest
    else e :: speciesListAux (pyLower e :: seen) rest

/-- `species_list`: case-insensitive first-occurrence deduplication of
`especies_tombadas + especies_censo`. -/
def species_list (df : List TombRow) (censo : List CensoRow) : List String :=
  speciesListAux [] (especies_tombadas df ++ especies_censo censo)

/-- Python string comparison `a < b`: lexicographic by code point. -/
def lexLtChars : List Char → List Char → Bool
  | [], [] => false
  | [], _ :: _ => true
  | _ :: _, [] => false
  | a :: as, b :: bs =>
    if a < b then true
    else if b < a then false
    else lexLtChars as bs

/-- Python string comparison `a <= b` (strings are totally ordered, so
`a <= b ↔ ¬ b < a`). -/
def pyStrLe (a b : String) : Bool :=
  ! lexLtChars b.data a.data

/-- The key comparison of `sorted(species_list, key=lambda x: x.lower())`. -/
def lowerLe (a b : String) : Prop :=
  pyStrLe (pyLower a) (pyLower b) = true

instance : DecidableRel lowerLe := fun a b =>
  inferInstanceAs (Decidable (pyStrLe (pyLower a) (pyLower b) = true))

/-- `lista_especies = sorted(species_list, key=lambda x: x.lower())`: a
stable comparison sort by the lowercased key. -/
def lista_especies (df : List TombRow) (censo : List CensoRow) : List String :=
  (species_list df censo).insertionSort lowerLe

/-- One entry of the checklist options: `{'label': ..., 'value': ...}`. -/
structure SpeciesOption where
  label : String
  value : String
deriving DecidableEq, Repr

/-- `especies_options`: each species of `lista_especies`, labelled with a tree
emoji when the exact name is a member of `especies_tombadas`. -/
def especies_options (df : List TombRow) (censo : List CensoRow) :
    List SpeciesOption :=
  (lista_especies df censo).map fun especie =>
    let is_tombada := especie ∈ especies_tombadas df
    { label := if is_tombada then especie ++ " 🌳" else especie
      value := especie }

/-! ### Model of `pandas.Series.str.contains`

`str.contains(st, na=False)` interprets `st` as a regular expression and
performs an unanchored `re.search`; missing values yield `False`.  The
fragment of Python regular expressions needed here (and the one this model is
faithful to) is: literal characters, backslash-escaped literal characters,
`.` (any character except newline), and the quantifiers `*`, `+`, `?` on a
single such atom.  Patterns outside this fragment (character classes, groups,
alternation — on some of which Python would raise `re.error`) are read as
literal characters. -/

/-- A regex atom: a literal character or `.`. -/
inductive RTok where
  | lit (c : Char)
  | dot
deriving DecidableEq, Repr

/-- A regex item: an atom, possibly under a quantifier. -/
inductive RItem where
  | one (t : RTok)
  | star (t : RTok)
  | plus (t : RTok)
  | quest (t : RTok)
deriving DecidableEq, Repr

/-- The atom denoted by a single unescaped pattern character. -/
def rtokOf (c : Char) : RTok :=
  if c = '.' then RTok.dot else RTok.lit c

/-- Parse a pattern into a list of items (the fragment described above). -/
def parseRegex : List Char → List RItem
  | [] => []
  | '\\' :: d :: '*' :: r => RItem.star (RTok.lit d) :: parseRegex r
  | '\\' :: d :: '+' :: r => RItem.plus (RTok.lit d) :: parseRegex r
  | '\\' :: d :: '?' :: r => RItem.quest (RTok.lit d) :: parseRegex r
  | '\\' :: d :: r => RItem.one (RTok.lit d) :: parseRegex r
  | ['\\'] => [RItem.one (RTok.lit '\\')]
  | c :: '*' :: r => RItem.star (rtokOf c) :: parseRegex r
  | c :: '+' :: r => RItem.plus (rtokOf c) :: parseRegex r
  | c :: '?' :: r => RItem.quest (rtokOf c) :: parseRegex r
  | c :: r => RItem.one (rtokOf c) :: parseRegex r

/-- Whether an atom matches a character (`.` excludes newline, as in Python
without `re.DOTALL`). -/
def tokMatch : RTok → Char → Bool
  | RTok.lit c, d => c == d
  | RTok.dot, d => d != '\n'

/-- Repetition of a single atom `t` followed by a continuation `k`: succeed
if `k` accepts after consuming zero or more characters matching `t`. -/
def starLoop (t : RTok) (k : List Char → Bool) : List Char → Bool
  | [] => k []
  | c :: cs => k (c :: cs) || (tokMatch t c && starLoop t k cs)

/-- Whether the item list matches some prefix of the character list. -/
def matchItems : List RItem → List Char → Bool
  | [], _ => true
  | RItem.one t :: is, cs =>
    match cs with
    | [] => false
    | c :: cs' => tokMatch t c && matchItems is cs'
  | RItem.quest t :: is, cs =>
    matchItems is cs ||
      (match cs with
       | [] => false
       | c :: cs' => tokMatch t c && matchItems is cs')
  | RItem.star t :: is, cs => starLoop t (matchItems is) cs
  | RItem.plus t :: is, cs =>
    match cs with
    | [] => false
    | c :: cs' => tokMatch t c && starLoop t (matchItems is) cs'

/-- Whether the item list matches starting at some position of the character
list. -/
def searchFrom (is : List RItem) : List Char → Bool
  | [] => matchItems is []
  | c :: cs => matchItems is (c :: cs) || searchFrom is cs

/-- `re.search(pat, s)` as a boolean, for the pattern fragment above. -/
def reSearch (pat s : String) : Bool :=
  searchFrom (parseRegex pat.data) s.data

/-- The predicate of `col.str.lower().str.contains(st, na=False)` on one cell:
missing values never match, present values are lowercased and searched. -/
def cellContains (st : String) (cell : Option String) : Bool :=
  match cell with
  | none => false
  | some s => reSearch st (pyLower s)

/-- `series.isin(values)` on one cell: a missing value is never a member. -/
def cellIsin (cell : Option String) (values : List String) : Bool :=
  match cell with
  | none => false
  | some s => s ∈ values

/-- The guard `if search_term and search_term.strip() != "":` (a `None` or
empty or whitespace-only search term is inactive). -/
def searchActive (search_term : Option String) : Bool :=
  match search_term with
  | none => false
  | some s => !(s == "") && !(pyStrip s == "")

/-! ### Figures and traces -/

/-- A plotly trace, restricted to the two kinds the app builds.  Constant
styling fields that are decimal literals in the source are carried as their
decimal strings. -/
inductive Trace where
  | choroplethMapbox (locations : List Nat) (z : List Nat)
      (hovertext : List String) (name : String) (visible : Bool)
      (legendgroup : String) (showlegend : Bool)
  | scatterMapbox (lat : List Int) (lon : List Int) (text : List (Option String))
      (name : String) (markerSize : Nat) (markerColor : String)
      (markerOpacity : String) (visible : Bool) (legendgroup : String)
      (showlegend : Bool)
deriving DecidableEq, Repr

/-- The `name` field of a trace. -/
def Trace.name : Trace → String
  | .choroplethMapbox _ _ _ n _ _ _ => n
  | .scatterMapbox _ _ _ n _ _ _ _ _ _ => n

/-- The `visible` field of a trace. -/
def Trace.visible : Trace → Bool
  | .choroplethMapbox _ _ _ _ v _ _ => v
  | .scatterMapbox _ _ _ _ _ _ _ v _ _ => v

/-- Overwrite the `visible` field of a trace, leaving every other field
unchanged. -/
def Trace.setVisible : Trace → Bool → Trace
  | .choroplethMapbox a b c d _ e f, v => .choroplethMapbox a b c d v e f
  | .scatterMapbox a b c d e f g _ h i, v => .scatterMapbox a b c d e f g v h i

/-- The legend part of a `go.Layout`; `itemsizing` and `traceorder` are only
present when set by an `update_layout` call. -/
structure LayoutLegend where
  title : String
  yanchor : String
  y : String
  xanchor : String
  x : String
  bgcolor : String
  fontSize : Nat
  itemsizing : Option String
  traceorder : Option String
deriving DecidableEq, Repr

/-- The layout of the map figure. -/
structure Layout where
  mapbox_style : String
  mapbox_zoom : Nat
  mapbox_center_lat : String
  mapbox_center_lon : String
  height : Nat
  legend : LayoutLegend
  hovermode : String
deriving DecidableEq, Repr

/-- A plotly figure: a list of traces and a layout. -/
structure Figure where
  data : List Trace
  layout : Layout
deriving DecidableEq, Repr

/-- The module-level `map_layout`. -/
def map_layout : Layout :=
  { mapbox_style := "open-street-map"
    mapbox_zoom := 11
    mapbox_center_lat := "-8.05"
    mapbox_center_lon := "-34.9"
    height := 700
    legend :=
      { title := "Legenda:", yanchor := "top", y := "0.99", xanchor := "left"
        x := "0.01", bgcolor := "rgba(255, 255, 255, 0.7)", fontSize := 12
        itemsizing := none, traceorder := none }
    hovermode := "closest" }

/-- The conservation-area choropleth trace built (twice, with identical
fields) from `gdf_ucn`, at a given visibility. -/
def choropleth_ucn_trace_of (ucn : List UcnRow) (visible : Bool) : Trace :=
  Trace.choroplethMapbox (List.range ucn.length) (List.replicate ucn.length 1)
    (ucn.map (·.CDZONA_NOME)) "Áreas de Conservação" visible "conservation" true

/-- The module-level `choropleth_ucn_trace` (`visible=True`). -/
def choropleth_ucn_trace (ucn : List UcnRow) : Trace :=
  choropleth_ucn_trace_of ucn true

/-- `initial_map_figure`: the conservation trace over `map_layout`, after the
`update_layout` setting `itemsizing='constant'` and `traceorder='normal'`. -/
def initial_map_figure (ucn : List UcnRow) : Figure :=
  { data := [choropleth_ucn_trace ucn]
    layout :=
      { map_layout with
          legend :=
            { map_layout.legend with
                itemsizing := some "constant", traceorder := some "normal" } } }

/-- The layout of every figure returned by the callback: `map_layout` after
the `fig.update_layout` call (same centre and zoom, legend re-asserted with
`itemsizing='constant'`). -/
def callbackLayout : Layout :=
  { map_layout with
      legend := { map_layout.legend with itemsizing := some "constant" } }

/-! ### The callback -/

/-- Which input fired the callback (`ctx.triggered[0]['prop_id']`); an
invocation with no trigger raises `PreventUpdate` and is not modelled. -/
inductive Trigger where
  | filtroNomeArvore
  | filtroEspecie
  | toggleUcnButton
  | selectAllButton
  | deselectAllButton
deriving DecidableEq, Repr

/-- The tombadas table after the search filter (applied only when the guard
holds) and the selected-species membership filter. -/
def filteredTombadas (df : List TombRow) (search_term : Option String)
    (selected_species : List String) : List TombRow :=
  let df₁ :=
    if searchActive search_term then
      let st := pyLower (pyStrip (search_term.getD ""))
      df.filter fun r => cellContains st r.nome_popular
    else df
  df₁.filter fun r => cellIsin r.nome_popular selected_species

/-- The census table after the search filter and the selected-species
membership filter. -/
def filteredCenso (censo : List CensoRow) (search_term : Option String)
    (selected_species : List String) : List CensoRow :=
  let g₁ :=
    if searchActive search_term then
      let st := pyLower (pyStrip (search_term.getD ""))
      censo.filter fun r => cellContains st r.nome_popul
    else censo
  g₁.filter fun r => cellIsin r.nome_popul selected_species

/-- The `'Censo Arbóreo'` scatter trace built from the filtered census
table. -/
def censoTraceOf (rows : List CensoRow) : Trace :=
  Trace.scatterMapbox (rows.map (·.latitude)) (rows.map (·.longitude))
    (rows.map (·.nome_popul)) "Censo Arbóreo" 6 "royalblue" "0.7" true
    "trees" true

/-- The `'Árvores Tombadas'` scatter trace built from the filtered tombadas
table. -/
def tombadasTraceOf (rows : List TombRow) : Trace :=
  Trace.scatterMapbox (rows.map (·.latitude)) (rows.map (·.longitude))
    (rows.map (·.nome_popular)) "Árvores Tombadas" 10 "darkorange" "0.9" true
    "trees" true

/-- The reassignment of `selected_species` performed by the select-all and
deselect-all branches (any other non-toggle trigger leaves it unchanged). -/
def adjustedSelection (trigger : Trigger) (selected_species : List String)
    (species_options : List SpeciesOption) : List String :=
  if trigger = Trigger.selectAllButton then
    species_options.map (·.value)
  else if trigger = Trigger.deselectAllButton then []
  else selected_species

/-- The marker traces appended after the conservation trace: none when no
species is selected, and otherwise the census and tombadas traces, each only
when its filtered table is non-empty. -/
def pointTraces (df : List TombRow) (censo : List CensoRow)
    (search_term : Option String) (selected_species : List String) :
    List Trace :=
  if selected_species.isEmpty then []
  else
    let tomb := filteredTombadas df search_term selected_species
    let cens := filteredCenso censo search_term selected_species
    (if cens.isEmpty then [] else [censoTraceOf cens]) ++
    (if tomb.isEmpty then [] else [tombadasTraceOf tomb])

/-- `update_mapa_camadas`, the single Dash callback.  Returns `none` where
the Python code would raise (`current_figure['data'][0]` on an empty data
list), and otherwise the new figure and the new checklist value. -/
def update_mapa_camadas (df : List TombRow) (censo : List CensoRow)
    (ucn : List UcnRow) (trigger : Trigger) (search_term : Option String)
    (selected_species : List String) (current_figure : Figure)
    (species_options : List SpeciesOption) :
    Option (Figure × List String) :=
  if trigger = Trigger.toggleUcnButton then
    match current_figure.data with
    | [] => none
    | t0 :: rest =>
      some ({ current_figure with data := t0.setVisible (! t0.visible) :: rest },
            selected_species)
  else
    let selected_species :=
      adjustedSelection trigger selected_species species_options
    match current_figure.data with
    | [] => none
    | t0 :: _ =>
      let ucn_visible := t0.visible
      some ({ data := choropleth_ucn_trace_of ucn ucn_visible ::
                pointTraces df censo search_term selected_species
              layout := callbackLayout },
            selected_species)

/-- Whether the figure contains a trace of the given name. -/
def hasTraceNamed (f : Figure) (n : String) : Bool :=
  f.data.any fun t => t.name == n

/-- The trace is the conservation-area choropleth built from `ucn`, at some
visibility. -/
def IsUcnTrace (ucn : List UcnRow) (t : Trace) : Prop :=
  ∃ v, t = choropleth_ucn_trace_of ucn v

/-- Case-insensitive substring containment — the predicate the specification
ascribes to the free-text search. -/
def containsSubstringCI (hay needle : String) : Bool :=
  (List.range (hay.data.length + 1)).any fun i =>
    List.isPrefixOf (pyLower needle).data ((pyLower hay).data.drop i)

/-- The process state: the three tables loaded at start.  The callback body
declares no `global`, copies each table (`df.copy()`) before filtering, and
boolean-mask filtering builds new frames, so the state is threaded through
unchanged. -/
structure ProcState where
  df : List TombRow
  censo : List CensoRow
  ucn : List UcnRow
deriving DecidableEq, Repr

/-- The callback as a state-passing function over the process state. -/
def update_mapa_camadas_state (st : ProcState) (trigger : Trigger)
    (search_term : Option String) (selected_species : List String)
    (current_figure : Figure) (species_options : List SpeciesOption) :
    ProcState × Option (Figure × List String) :=
  (st, update_mapa_camadas st.df st.censo st.ucn trigger search_term
        selected_species current_figure species_options)

/-! ## Helper lemmas -/

theorem lexLtChars_asymm :
    ∀ a b : List Char, lexLtChars a b = true → lexLtChars b a = true → False
  | [], [], h, _ => by simp [lexLtChars] at h
  | [], _ :: _, _, h' => by simp [lexLtChars] at h'
  | _ :: _, [], h, _ => by simp [lexLtChars] at h
  | a :: as, b :: bs, h, h' => by
    by_cases hab : a < b
    · have hba : ¬ b < a := lt_asymm hab
      simp [lexLtChars, hab, hba] at h'
    · by_cases hba : b < a
      · simp [lexLtChars, hab, hba] at h
      · simp only [lexLtChars, if_neg hab, if_neg hba] at h
        simp only [lexLtChars, if_neg hab, if_neg hba] at h'
        exact lexLtChars_asymm as bs h h'

theorem lexLtChars_or_of_lt :
    ∀ a b c : List Char, lexLtChars a c = true →
      lexLtChars a b = true ∨ lexLtChars b c = true
  | [], [], _, h => Or.inr h
  | [], _ :: _, _, _ => Or.inl (by simp [lexLtChars])
  | _ :: _, _, [], h => by simp [lexLtChars] at h
  | _ :: _, [], _ :: _, _ => Or.inr (by simp [lexLtChars])
  | x :: xs, y :: ys, z :: zs, h => by
    by_cases hxz : x < z
    · rcases lt_trichotomy x y with hxy | hxy | hxy
      · exact Or.inl (by simp [lexLtChars, hxy])
      · subst hxy
        exact Or.inr (by simp [lexLtChars, hxz])
      · exact Or.inr (by simp [lexLtChars, lt_trans hxy hxz])
    · by_cases hzx : z < x
      · simp [lexLtChars, hxz, hzx] at h
      · have hxez : x = z := le_antisymm (not_lt.mp hzx) (not_lt.mp hxz)
        subst hxez
        simp only [lexLtChars, if_neg hxz, if_neg hzx] at h
        rcases lt_trichotomy x y with hxy | hxy | hxy
        · exact Or.inl (by simp [lexLtChars, hxy])
        · subst hxy
          rcases lexLtChars_or_of_lt xs ys zs h with h' | h'
          · exact Or.inl (by simp [lexLtChars, lt_irrefl, h'])
          · exact Or.inr (by simp [lexLtChars, lt_irrefl, h'])
        · exact Or.inr (by simp [lexLtChars, hxy])

theorem pyStrLe_total (a b : String) : pyStrLe a b = true ∨ pyStrLe b a = true := by
  unfold pyStrLe
  cases hx : lexLtChars b.data a.data with
  | false => exact Or.inl (by simp)
  | true =>
    cases hy : lexLtChars a.data b.data with
    | false => exact Or.inr (by simp)
    | true => exact absurd (lexLtChars_asymm _ _ hx hy) (by simp)

theorem pyStrLe_trans (a b c : String) (h₁ : pyStrLe a b = true)
    (h₂ : pyStrLe b c = true) : pyStrLe a c = true := by
  unfold pyStrLe at h₁ h₂ ⊢
  simp only [Bool.not_eq_true'] at h₁ h₂ ⊢
  cases hca : lexLtChars c.data a.data with
  | false => rfl
  | true =>
    rcases lexLtChars_or_of_lt c.data b.data a.data hca with h | h
    · rw [h₂] at h; exact absurd h (by simp)
    · rw [h₁] at h; exact absurd h (by simp)

theorem lowerLe_total (a b : String) : lowerLe a b ∨ lowerLe b a :=
  pyStrLe_total (pyLower a) (pyLower b)

theorem lowerLe_trans (a b c : String) (h₁ : lowerLe a b) (h₂ : lowerLe b c) :
    lowerLe a c :=
  pyStrLe_trans (pyLower a) (pyLower b) (pyLower c) h₁ h₂

theorem Trace.setVisible_visible (t : Trace) (b : Bool) :
    (t.setVisible b).visible = b := by
  cases t <;> rfl

theorem Trace.setVisible_cancel (t : Trace) (b : Bool) :
    (t.setVisible b).setVisible t.visible = t := by
  cases t <;> rfl

theorem cellIsin_nil (cell : Option String) : cellIsin cell [] = false := by
  cases cell <;> simp [cellIsin]

theorem filteredTombadas_nil (df : List TombRow) (st : Option String) :
    filteredTombadas df st [] = [] := by
  unfold filteredTombadas
  simp [cellIsin_nil]

theorem filteredCenso_nil (censo : List CensoRow) (st : Option String) :
    filteredCenso censo st [] = [] := by
  unfold filteredCenso
  simp [cellIsin_nil]

theorem update_toggle_eq (df : List TombRow) (censo : List CensoRow)
    (ucn : List UcnRow) (search_term : Option String)
    (selected_species : List String) (current_figure : Figure)
    (species_options : List SpeciesOption) (t0 : Trace) (rest : List Trace)
    (hdata : current_figure.data = t0 :: rest) :
    update_mapa_camadas df censo ucn Trigger.toggleUcnButton search_term
        selected_species current_figure species_options =
      some ({ current_figure with data := t0.setVisible (! t0.visible) :: rest },
            selected_species) := by
  obtain ⟨dataL, layoutL⟩ := current_figure
  have hd : dataL = t0 :: rest := hdata
  subst hd
  rfl

theorem update_nonToggle_eq (df : List TombRow) (censo : List CensoRow)
    (ucn : List UcnRow) (trigger : Trigger) (search_term : Option String)
    (selected_species : List String) (current_figure : Figure)
    (species_options : List SpeciesOption) (t0 : Trace) (rest : List Trace)
    (htr : trigger ≠ Trigger.toggleUcnButton)
    (hdata : current_figure.data = t0 :: rest) :
    update_mapa_camadas df censo ucn trigger search_term selected_species
        current_figure species_options =
      some ({ data := choropleth_ucn_trace_of ucn t0.visible ::
                pointTraces df censo search_term
                  (adjustedSelection trigger selected_species species_options)
              layout := callbackLayout },
            adjustedSelection trigger selected_species species_options) := by
  obtain ⟨dataL, layoutL⟩ := current_figure
  have hd : dataL = t0 :: rest := hdata
  subst hd
  unfold update_mapa_camadas
  rw [if_neg htr]

theorem mem_pandasUniqueAux (l : List String) :
    ∀ (seen : List String) (x : String),
      x ∈ pandasUniqueAux seen l ↔ x ∈ l ∧ x ∉ seen := by
  induction l with
  | nil => intro seen x; simp [pandasUniqueAux]
  | cons e rest ih =>
    intro seen x
    by_cases he : e ∈ seen
    · rw [pandasUniqueAux, if_pos he, ih, List.mem_cons]
      constructor
      · rintro ⟨hx, hns⟩; exact ⟨Or.inr hx, hns⟩
      · rintro ⟨rfl | hx, hns⟩
        · exact absurd he hns
        · exact ⟨hx, hns⟩
    · rw [pandasUniqueAux, if_neg he]
      simp only [List.mem_cons, ih, List.mem_cons]
      constructor
      · rintro (rfl | ⟨hx, hns⟩)
        · exact ⟨Or.inl rfl, he⟩
        · exact ⟨Or.inr hx, fun hs => hns (Or.inr hs)⟩
      · rintro ⟨rfl | hx, hns⟩
        · exact Or.inl rfl
        · rcases eq_or_ne x e with rfl | hxe
          · exact Or.inl rfl
          · exact Or.inr ⟨hx, fun hs => hs.elim hxe hns⟩

theorem mem_pandasUnique (l : List String) (x : String) :
    x ∈ pandasUnique l ↔ x ∈ l := by
  rw [pandasUnique, mem_pandasUniqueAux]
  simp

theorem find?_pandasUniqueAux (p : String → Bool) (l : List String) :
    ∀ seen : List String, (∀ s ∈ seen, p s = false) →
      List.find? p (pandasUniqueAux seen l) = List.find? p l := by
  induction l with
  | nil => intro seen _; rfl
  | cons e rest ih =>
    intro seen hseen
    by_cases he : e ∈ seen
    · rw [pandasUniqueAux, if_pos he, ih seen hseen,
        List.find?_cons_of_neg _ (by simp [hseen e he])]
    · by_cases hp : p e
      · rw [pandasUniqueAux, if_neg he, List.find?_cons_of_pos _ hp,
          List.find?_cons_of_pos _ hp]
      · rw [pandasUniqueAux, if_neg he, List.find?_cons_of_neg _ (by simp [hp]),
          List.find?_cons_of_neg _ (by simp [hp])]
        exact ih (e :: seen) (by
          intro s hs
          rcases List.mem_cons.mp hs with rfl | hs
          · exact Bool.eq_false_iff.mpr hp
          · exact hseen s hs)

theorem find?_pandasUnique (p : String → Bool) (l : List String) :
    List.find? p (pandasUnique l) = List.find? p l :=
  find?_pandasUniqueAux p l [] (by simp)

theorem mem_speciesListAux_imp (l : List String) :
    ∀ (seen : List String) (x : String),
      x ∈ speciesListAux seen l → x ∈ l ∧ pyLower x ∉ seen := by
  induction l with
  | nil => intro seen x hx; simp [speciesListAux] at hx
  | cons e rest ih =>
    intro seen x hx
    by_cases he : pyLower e ∈ seen
    · rw [speciesListAux, if_pos he] at hx
      obtain ⟨h1, h2⟩ := ih seen x hx
      exact ⟨List.mem_cons_of_mem _ h1, h2⟩
    · rw [speciesListAux, if_neg he] at hx
      rcases List.mem_cons.mp hx with rfl | hx
      · exact ⟨List.mem_cons_self _ _, he⟩
      · obtain ⟨h1, h2⟩ := ih _ x hx
        exact ⟨List.mem_cons_of_mem _ h1,
          fun hs => h2 (List.mem_cons_of_mem _ hs)⟩

theorem exists_speciesListAux (l : List String) :
    ∀ (seen : List String) (y : String), y ∈ l → pyLower y ∉ seen →
      ∃ x ∈ speciesListAux seen l, pyLower x = pyLower y := by
  induction l with
  | nil => intro seen y hy _; simp at hy
  | cons e rest ih =>
    intro seen y hy hns
    by_cases he : pyLower e ∈ seen
    · rw [speciesListAux, if_pos he]
      rcases List.mem_cons.mp hy with rfl | hy
      · exact absurd he hns
      · exact ih seen y hy hns
    · rw [speciesListAux, if_neg he]
      rcases eq_or_ne (pyLower y) (pyLower e) with heq | hne
      · exact ⟨e, List.mem_cons_self _ _, heq.symm⟩
      · rcases List.mem_cons.mp hy with rfl | hy
        · exact absurd rfl hne
        · obtain ⟨x, hx, hxe⟩ := ih (pyLower e :: seen) y hy (by
            intro hs
            rcases List.mem_cons.mp hs with h | h
            · exact hne h
            · exact hns h)
          exact ⟨x, List.mem_cons_of_mem _ hx, hxe⟩

theorem find?_speciesListAux (l : List String) :
    ∀ (seen : List String) (x : String), x ∈ speciesListAux seen l →
      List.find? (fun y => pyLower y == pyLower x) l = some x := by
  induction l with
  | nil => intro seen x hx; simp [speciesListAux] at hx
  | cons e rest ih =>
    intro seen x hx
    by_cases he : pyLower e ∈ seen
    · rw [speciesListAux, if_pos he] at hx
      have hns := (mem_speciesListAux_imp rest seen x hx).2
      have hne : pyLower e ≠ pyLower x := fun h => hns (h ▸ he)
      rw [List.find?_cons_of_neg _ (by simp [hne]), ih seen x hx]
    · rw [speciesListAux, if_neg he] at hx
      rcases List.mem_cons.mp hx with rfl | hx
      · rw [List.find?_cons_of_pos _ (by simp)]
      · have hns := (mem_speciesListAux_imp rest _ x hx).2
        have hne : pyLower e ≠ pyLower x := fun h =>
          hns (h ▸ List.mem_cons_self _ _)
        rw [List.find?_cons_of_neg _ (by simp [hne]), ih _ x hx]

theorem find?_lista_especies (df : List TombRow) (censo : List CensoRow)
    (x : String) (hx : x ∈ lista_especies df censo) :
    List.find? (fun y => pyLower y == pyLower x) (allNames df censo) = some x := by
  rw [lista_especies, List.mem_insertionSort] at hx
  have h1 := find?_speciesListAux _ [] x hx
  rw [List.find?_append, especies_tombadas, especies_censo,
    find?_pandasUnique, find?_pandasUnique] at h1
  rw [allNames, List.find?_append]
  exact h1

theorem lista_especies_lower_inj (df : List TombRow) (censo : List CensoRow)
    (x x' : String) (hx : x ∈ lista_especies df censo)
    (hx' : x' ∈ lista_especies df censo) (he : pyLower x = pyLower x') :
    x = x' := by
  have h1 := find?_lista_especies df censo x hx
  have h2 := find?_lista_especies df censo x' hx'
  rw [he] at h1
  rw [h1] at h2
  exact Option.some.inj h2

/-! ## Claim theorems -/

/-- C4: the derived species list merges the tombadas and census popular
names: every non-missing name of either source has a representative in the
list up to case-insensitive equality; each list entry is the first element
of the merged name sequence (tombadas names first, in table order) in its
case-insensitive class, so classes are represented by their first occurrence
and (together with injectivity of the lowercased key on the list) exactly
once; and the list is sorted by the lowercased key. -/
theorem c4_lista_especies_merge_dedup_sorted (df : List TombRow)
    (censo : List CensoRow) :
    (∀ y ∈ allNames df censo,
      ∃ x ∈ lista_especies df censo, pyLower x = pyLower y) ∧
    (∀ x ∈ lista_especies df censo,
      List.find? (fun y => pyLower y == pyLower x) (allNames df censo) =
        some x) ∧
    (∀ x ∈ lista_especies df censo, ∀ x' ∈ lista_especies df censo,
      pyLower x = pyLower x' → x = x') ∧
    (lista_especies df censo).Pairwise lowerLe := by
  refine ⟨?_, ?_, ?_, ?_⟩
  · intro y hy
    rw [allNames, List.mem_append] at hy
    have hy' : y ∈ especies_tombadas df ++ especies_censo censo := by
      rw [List.mem_append, especies_tombadas, especies_censo,
        mem_pandasUnique, mem_pandasUnique]
      exact hy
    obtain ⟨x, hx, hxe⟩ := exists_speciesListAux _ [] y hy' (by simp)
    refine ⟨x, ?_, hxe⟩
    rw [lista_especies, List.mem_insertionSort]
    exact hx
  · exact fun x hx => find?_lista_especies df censo x hx
  · exact fun x hx x' hx' => lista_especies_lower_inj df censo x x' hx hx'
  · haveI : IsTotal String lowerLe := ⟨lowerLe_total⟩
    haveI : IsTrans String lowerLe := ⟨fun a b c => lowerLe_trans a b c⟩
    exact List.sorted_insertionSort lowerLe _

/-- Witness for C4 at a concrete pair of tables: `"Manga"` from the tombadas
table and `"MANGA"` from the census table fall in one class represented by
the first occurrence `"Manga"`. -/
theorem c4_witness :
    ("MANGA" ∈ allNames [⟨some "Manga", none, 0, 0⟩]
        [⟨some "MANGA", 2, 2⟩, ⟨some "abacate", 3, 3⟩]) ∧
    (∃ x ∈ lista_especies [⟨some "Manga", none, 0, 0⟩]
        [⟨some "MANGA", 2, 2⟩, ⟨some "abacate", 3, 3⟩],
      pyLower x = pyLower "MANGA") ∧
    (List.find? (fun y => pyLower y == pyLower "Manga")
        (allNames [⟨some "Manga", none, 0, 0⟩]
          [⟨some "MANGA", 2, 2⟩, ⟨some "abacate", 3, 3⟩]) = some "Manga") ∧
    (lista_especies [⟨some "Manga", none, 0, 0⟩]
        [⟨some "MANGA", 2, 2⟩, ⟨some "abacate", 3, 3⟩]).Pairwise lowerLe :=
  ⟨by decide,
   (c4_lista_especies_merge_dedup_sorted _ _).1 "MANGA" (by decide),
   (c4_lista_especies_merge_dedup_sorted _ _).2.1 "Manga" (by decide),
   (c4_lista_especies_merge_dedup_sorted _ _).2.2.2⟩

/-- C5: an entry of the derived species options carries the tree-emoji
(registered) label iff its value occurs case-insensitively among the
non-missing tombadas popular names. -/
theorem c5_option_flag_iff (df : List TombRow) (censo : List CensoRow)
    (o : SpeciesOption) (ho : o ∈ especies_options df censo) :
    o.label = o.value ++ " 🌳" ↔
      ∃ y ∈ dropna (df.map (·.nome_popular)), pyLower y = pyLower o.value := by
  obtain ⟨v, hv, rfl⟩ := List.mem_map.mp ho
  dsimp only
  by_cases ht : v ∈ especies_tombadas df
  · rw [if_pos ht]
    constructor
    · intro _
      refine ⟨v, ?_, rfl⟩
      rw [especies_tombadas, mem_pandasUnique] at ht
      exact ht
    · intro _
      rfl
  · rw [if_neg ht]
    constructor
    · intro h
      exfalso
      have h2 : v.data = v.data ++ (" 🌳" : String).data :=
        congrArg String.data h
      have h3 := congrArg List.length h2
      rw [List.length_append] at h3
      have h4 : (" 🌳" : String).data.length = 2 := by decide
      rw [h4] at h3
      omega
    · rintro ⟨y, hy, hye⟩
      exfalso
      have hfind := find?_lista_especies df censo v hv
      rw [allNames, List.find?_append] at hfind
      have hsome : (List.find? (fun w => pyLower w == pyLower v)
          (dropna (df.map (·.nome_popular)))).isSome :=
        List.find?_isSome.mpr ⟨y, hy, beq_iff_eq.mpr hye⟩
      obtain ⟨z, hz⟩ := Option.isSome_iff_exists.mp hsome
      rw [hz, Option.or_some] at hfind
      have hzv : z = v := Option.some.inj hfind
      subst hzv
      have hzmem := List.mem_of_find?_eq_some hz
      rw [especies_tombadas, mem_pandasUnique] at ht
      exact ht hzmem

/-- Witness for C5: in a concrete table pair, the option for `"Manga"`
(present in tombadas) is flagged, so the case-insensitive occurrence holds. -/
theorem c5_witness :
    ((⟨"Manga 🌳", "Manga"⟩ : SpeciesOption) ∈
      especies_options ([⟨some "Manga", none, 0, 0⟩] : List TombRow)
        ([⟨some "abacate", 3, 3⟩] : List CensoRow)) ∧
    ((⟨"Manga 🌳", "Manga"⟩ : SpeciesOption).label =
        (⟨"Manga 🌳", "Manga"⟩ : SpeciesOption).value ++ " 🌳" ↔
      ∃ y ∈ dropna (([⟨some "Manga", none, 0, 0⟩] : List TombRow).map
          (·.nome_popular)),
        pyLower y = pyLower (⟨"Manga 🌳", "Manga"⟩ : SpeciesOption).value) :=
  ⟨by decide,
   c5_option_flag_iff ([⟨some "Manga", none, 0, 0⟩] : List TombRow)
     ([⟨some "abacate", 3, 3⟩] : List CensoRow) ⟨"Manga 🌳", "Manga"⟩
     (by decide)⟩

/-- C1: on every invocation whose trigger is not the toggle button, the
conservation trace of the returned figure (its trace 0) carries exactly the
visibility flag read from trace 0 of the input figure. -/
theorem c1_visibility_preserved (df : List TombRow) (censo : List CensoRow)
    (ucn : List UcnRow) (trigger : Trigger) (search_term : Option String)
    (selected_species : List String) (current_figure : Figure)
    (species_options : List SpeciesOption) (t0 : Trace) (rest : List Trace)
    (fig : Figure) (sel : List String)
    (htr : trigger ≠ Trigger.toggleUcnButton)
    (hdata : current_figure.data = t0 :: rest)
    (hout : update_mapa_camadas df censo ucn trigger search_term
      selected_species current_figure species_options = some (fig, sel)) :
    fig.data.head? = some (choropleth_ucn_trace_of ucn t0.visible) ∧
    (choropleth_ucn_trace_of ucn t0.visible).visible = t0.visible := by
  rw [update_nonToggle_eq df censo ucn trigger search_term selected_species
    current_figure species_options t0 rest htr hdata] at hout
  simp only [Option.some.injEq, Prod.mk.injEq] at hout
  obtain ⟨hfig, -⟩ := hout
  subst hfig
  exact ⟨rfl, rfl⟩

/-- Witness for C1 at a concrete invocation triggered by the checklist. -/
theorem c1_witness :
    (Trigger.filtroEspecie ≠ Trigger.toggleUcnButton) ∧
    ((initial_map_figure ([] : List UcnRow)).data =
      choropleth_ucn_trace [] :: []) ∧
    (update_mapa_camadas [] [] [] Trigger.filtroEspecie none []
      (initial_map_figure []) [] =
      some ({ data := [choropleth_ucn_trace_of [] true]
              layout := callbackLayout }, [])) ∧
    (({ data := [choropleth_ucn_trace_of [] true]
        layout := callbackLayout } : Figure).data.head? =
      some (choropleth_ucn_trace_of [] true)) :=
  ⟨by decide, by decide, by decide,
   (c1_visibility_preserved [] [] [] Trigger.filtroEspecie none []
     (initial_map_figure []) [] (choropleth_ucn_trace []) []
     { data := [choropleth_ucn_trace_of [] true], layout := callbackLayout }
     [] (by decide) (by decide) (by decide)).1⟩

/-- C3: a toggle invocation returns the input figure with trace 0's
visibility negated and nothing else changed (the write of `setVisible`
restores the original trace when undone), together with the unchanged
selected-species list. -/
theorem c3_toggle_flips_only_visibility (df : List TombRow)
    (censo : List CensoRow) (ucn : List UcnRow) (search_term : Option String)
    (selected_species : List String) (current_figure : Figure)
    (species_options : List SpeciesOption) (t0 : Trace) (rest : List Trace)
    (hdata : current_figure.data = t0 :: rest) :
    update_mapa_camadas df censo ucn Trigger.toggleUcnButton search_term
        selected_species current_figure species_options =
      some ({ current_figure with data := t0.setVisible (! t0.visible) :: rest },
            selected_species) ∧
    (t0.setVisible (! t0.visible)).visible = (! t0.visible) ∧
    (t0.setVisible (! t0.visible)).setVisible t0.visible = t0 :=
  ⟨update_toggle_eq df censo ucn search_term selected_species current_figure
     species_options t0 rest hdata,
   Trace.setVisible_visible t0 (! t0.visible),
   Trace.setVisible_cancel t0 (! t0.visible)⟩

/-- Witness for C3 at a concrete toggle invocation on the initial figure. -/
theorem c3_witness :
    ((initial_map_figure ([] : List UcnRow)).data =
      choropleth_ucn_trace [] :: []) ∧
    (update_mapa_camadas [] [] [] Trigger.toggleUcnButton none ["x"]
        (initial_map_figure []) [] =
      some ({ initial_map_figure [] with
                data := (choropleth_ucn_trace []).setVisible
                  (! (choropleth_ucn_trace []).visible) :: [] },
            ["x"])) :=
  ⟨by decide,
   (c3_toggle_flips_only_visibility [] [] [] none ["x"]
     (initial_map_figure []) [] (choropleth_ucn_trace []) []
     (by decide)).1⟩

/-- C6: a select-all invocation returns exactly the option values as the new
selection, and a deselect-all invocation returns the empty selection,
whatever the input selection was. -/
theorem c6_select_all_deselect_all (df : List TombRow) (censo : List CensoRow)
    (ucn : List UcnRow) (search_term : Option String)
    (selected_species : List String) (current_figure : Figure)
    (species_options : List SpeciesOption) (t0 : Trace) (rest : List Trace)
    (hdata : current_figure.data = t0 :: rest) :
    (∀ fig sel,
      update_mapa_camadas df censo ucn Trigger.selectAllButton search_term
        selected_species current_figure species_options = some (fig, sel) →
      sel = species_options.map (·.value)) ∧
    (∀ fig sel,
      update_mapa_camadas df censo ucn Trigger.deselectAllButton search_term
        selected_species current_figure species_options = some (fig, sel) →
      sel = []) := by
  constructor
  · intro fig sel hout
    rw [update_nonToggle_eq df censo ucn Trigger.selectAllButton search_term
      selected_species current_figure species_options t0 rest (by decide)
      hdata] at hout
    simp only [Option.some.injEq, Prod.mk.injEq] at hout
    rw [← hout.2, adjustedSelection, if_pos rfl]
  · intro fig sel hout
    rw [update_nonToggle_eq df censo ucn Trigger.deselectAllButton search_term
      selected_species current_figure species_options t0 rest (by decide)
      hdata] at hout
    simp only [Option.some.injEq, Prod.mk.injEq] at hout
    rw [← hout.2, adjustedSelection, if_neg (by decide), if_pos rfl]

/-- Witness for C6 at a concrete pair of invocations with a non-empty input
selection and two options. -/
theorem c6_witness :
    ((initial_map_figure ([] : List UcnRow)).data =
      choropleth_ucn_trace [] :: []) ∧
    (update_mapa_camadas [] [] [] Trigger.selectAllButton none ["x"]
        (initial_map_figure []) [⟨"a 🌳", "a"⟩, ⟨"b", "b"⟩] =
      some ({ data := [choropleth_ucn_trace_of [] true]
              layout := callbackLayout }, ["a", "b"]) →
      (["a", "b"] : List String) =
        [(⟨"a 🌳", "a"⟩ : SpeciesOption), ⟨"b", "b"⟩].map (·.value)) ∧
    (update_mapa_camadas [] [] [] Trigger.deselectAllButton none ["x"]
        (initial_map_figure []) [⟨"a 🌳", "a"⟩, ⟨"b", "b"⟩] =
      some ({ data := [choropleth_ucn_trace_of [] true]
              layout := callbackLayout }, []) →
      ([] : List String) = []) :=
  ⟨by decide,
   (c6_select_all_deselect_all [] [] [] none ["x"] (initial_map_figure [])
     [⟨"a 🌳", "a"⟩, ⟨"b", "b"⟩] (choropleth_ucn_trace []) [] (by decide)).1
     { data := [choropleth_ucn_trace_of [] true], layout := callbackLayout }
     ["a", "b"],
   (c6_select_all_deselect_all [] [] [] none ["x"] (initial_map_figure [])
     [⟨"a 🌳", "a"⟩, ⟨"b", "b"⟩] (choropleth_ucn_trace []) [] (by decide)).2
     { data := [choropleth_ucn_trace_of [] true], layout := callbackLayout }
     []⟩

/-- C7: on a non-toggle invocation, an empty resulting selection yields a
figure with only the conservation trace, and each marker trace is present
exactly when its filtered table is non-empty. -/
theorem c7_marker_traces_iff_nonempty (df : List TombRow)
    (censo : List CensoRow) (ucn : List UcnRow) (trigger : Trigger)
    (search_term : Option String) (selected_species : List String)
    (current_figure : Figure) (species_options : List SpeciesOption)
    (t0 : Trace) (rest : List Trace) (fig : Figure) (sel : List String)
    (htr : trigger ≠ Trigger.toggleUcnButton)
    (hdata : current_figure.data = t0 :: rest)
    (hout : update_mapa_camadas df censo ucn trigger search_term
      selected_species current_figure species_options = some (fig, sel)) :
    (sel = [] → fig.data = [choropleth_ucn_trace_of ucn t0.visible]) ∧
    (hasTraceNamed fig "Censo Arbóreo" = true ↔
      filteredCenso censo search_term sel ≠ []) ∧
    (hasTraceNamed fig "Árvores Tombadas" = true ↔
      filteredTombadas df search_term sel ≠ []) := by
  rw [update_nonToggle_eq df censo ucn trigger search_term selected_species
    current_figure species_options t0 rest htr hdata] at hout
  simp only [Option.some.injEq, Prod.mk.injEq] at hout
  obtain ⟨hfig, hsel⟩ := hout
  subst hfig
  rw [hsel]
  refine ⟨?_, ?_, ?_⟩
  · intro h
    rw [h]
    simp [pointTraces]
  · by_cases hS : sel = []
    · subst hS
      rw [filteredCenso_nil]
      simp [pointTraces, hasTraceNamed, choropleth_ucn_trace_of, Trace.name]
    · have hS' : sel.isEmpty = false := by
        simpa [List.isEmpty_iff] using hS
      simp only [pointTraces, hS', Bool.false_eq_true, if_false]
      by_cases hc : filteredCenso censo search_term sel = []
      · rw [hc]
        simp only [hc, ne_eq, not_true_eq_false, iff_false]
        by_cases htb : filteredTombadas df search_term sel = []
        · rw [htb]
          simp [hasTraceNamed, choropleth_ucn_trace_of, Trace.name]
        · have htb' : (filteredTombadas df search_term sel).isEmpty = false := by
            simpa [List.isEmpty_iff] using htb
          simp [hasTraceNamed, htb', choropleth_ucn_trace_of, tombadasTraceOf,
            Trace.name]
      · have hc' : (filteredCenso censo search_term sel).isEmpty = false := by
          simpa [List.isEmpty_iff] using hc
        simp [hasTraceNamed, hc', hc, choropleth_ucn_trace_of, censoTraceOf,
          Trace.name]
  · by_cases hS : sel = []
    · subst hS
      rw [filteredTombadas_nil]
      simp [pointTraces, hasTraceNamed, choropleth_ucn_trace_of, Trace.name]
    · have hS' : sel.isEmpty = false := by
        simpa [List.isEmpty_iff] using hS
      simp only [pointTraces, hS', Bool.false_eq_true, if_false]
      by_cases htb : filteredTombadas df search_term sel = []
      · rw [htb]
        simp only [htb, ne_eq, not_true_eq_false, iff_false]
        by_cases hc : filteredCenso censo search_term sel = []
        · rw [hc]
          simp [hasTraceNamed, choropleth_ucn_trace_of, Trace.name]
        · have hc' : (filteredCenso censo search_term sel).isEmpty = false := by
            simpa [List.isEmpty_iff] using hc
          simp [hasTraceNamed, hc', choropleth_ucn_trace_of, censoTraceOf,
            Trace.name]
      · have htb' : (filteredTombadas df search_term sel).isEmpty = false := by
          simpa [List.isEmpty_iff] using htb
        simp [hasTraceNamed, htb', htb, choropleth_ucn_trace_of,
          tombadasTraceOf, Trace.name]

/-- Witness for C7 at a concrete invocation with an empty selection. -/
theorem c7_witness :
    (Trigger.filtroEspecie ≠ Trigger.toggleUcnButton) ∧
    ((initial_map_figure ([] : List UcnRow)).data =
      choropleth_ucn_trace [] :: []) ∧
    (update_mapa_camadas [⟨some "abc", none, 1, 2⟩] [] []
        Trigger.filtroEspecie none [] (initial_map_figure []) [] =
      some ({ data := [choropleth_ucn_trace_of [] true]
              layout := callbackLayout }, [])) ∧
    (hasTraceNamed { data := [choropleth_ucn_trace_of [] true],
                     layout := callbackLayout } "Árvores Tombadas" = true ↔
      filteredTombadas [⟨some "abc", none, 1, 2⟩] none [] ≠ []) :=
  ⟨by decide, by decide, by decide,
   (c7_marker_traces_iff_nonempty [⟨some "abc", none, 1, 2⟩] [] []
     Trigger.filtroEspecie none [] (initial_map_figure []) []
     (choropleth_ucn_trace []) []
     { data := [choropleth_ucn_trace_of [] true], layout := callbackLayout }
     [] (by decide) (by decide) (by decide)).2.2⟩

/-- C8: trace 0 of the initial figure is the conservation choropleth, and
both callback branches keep a conservation choropleth (built from the same
conservation table) at position 0 of the returned figure. -/
theorem c8_trace0_is_conservation (df : List TombRow) (censo : List CensoRow)
    (ucn : List UcnRow) (trigger : Trigger) (search_term : Option String)
    (selected_species : List String) (current_figure : Figure)
    (species_options : List SpeciesOption) (t0 : Trace) (rest : List Trace)
    (fig : Figure) (sel : List String)
    (hdata : current_figure.data = t0 :: rest)
    (hucn : IsUcnTrace ucn t0)
    (hout : update_mapa_camadas df censo ucn trigger search_term
      selected_species current_figure species_options = some (fig, sel)) :
    (initial_map_figure ucn).data.head? = some (choropleth_ucn_trace ucn) ∧
    IsUcnTrace ucn (choropleth_ucn_trace ucn) ∧
    ∃ t0', fig.data.head? = some t0' ∧ IsUcnTrace ucn t0' := by
  refine ⟨rfl, ⟨true, rfl⟩, ?_⟩
  by_cases htr : trigger = Trigger.toggleUcnButton
  · subst htr
    rw [update_toggle_eq df censo ucn search_term selected_species
      current_figure species_options t0 rest hdata] at hout
    simp only [Option.some.injEq, Prod.mk.injEq] at hout
    obtain ⟨hfig, -⟩ := hout
    subst hfig
    obtain ⟨v, rfl⟩ := hucn
    exact ⟨choropleth_ucn_trace_of ucn (! v), rfl, ⟨! v, rfl⟩⟩
  · rw [update_nonToggle_eq df censo ucn trigger search_term selected_species
      current_figure species_options t0 rest htr hdata] at hout
    simp only [Option.some.injEq, Prod.mk.injEq] at hout
    obtain ⟨hfig, -⟩ := hout
    subst hfig
    exact ⟨choropleth_ucn_trace_of ucn t0.visible, rfl, ⟨t0.visible, rfl⟩⟩

/-- Witness for C8 at a concrete toggle invocation on the initial figure. -/
theorem c8_witness :
    ((initial_map_figure ([] : List UcnRow)).data =
      choropleth_ucn_trace [] :: []) ∧
    IsUcnTrace [] (choropleth_ucn_trace []) ∧
    (update_mapa_camadas [] [] [] Trigger.toggleUcnButton none []
        (initial_map_figure []) [] =
      some ({ initial_map_figure [] with
                data := [choropleth_ucn_trace_of [] false] }, [])) ∧
    (∃ t0', ({ initial_map_figure [] with
        data := [choropleth_ucn_trace_of [] false] } : Figure).data.head? =
      some t0' ∧ IsUcnTrace [] t0') :=
  ⟨by decide, ⟨true, rfl⟩, by decide,
   (c8_trace0_is_conservation [] [] [] Trigger.toggleUcnButton none []
     (initial_map_figure []) [] (choropleth_ucn_trace []) []
     { initial_map_figure [] with data := [choropleth_ucn_trace_of [] false] }
     [] (by decide) ⟨true, rfl⟩ (by decide)).2.2⟩

/-- C2: the search predicate is `pandas str.contains`, which treats the
term as a regular expression, not as a substring.  At search term `"."`,
selection `["abc"]` and a tombadas table containing only `"abc"`, the
callback keeps the row and emits the `'Árvores Tombadas'` trace although
`"abc"` does not contain `"."` as a (case-insensitive) substring, so the
claimed substring reading is violated by the code. -/
theorem c2_search_is_regex_not_substring :
    (update_mapa_camadas [⟨some "abc", none, 1, 2⟩] [] []
        Trigger.filtroNomeArvore (some ".") ["abc"]
        { data := [choropleth_ucn_trace_of [] true], layout := callbackLayout }
        [] =
      some ({ data := [choropleth_ucn_trace_of [] true,
                       tombadasTraceOf [⟨some "abc", none, 1, 2⟩]],
              layout := callbackLayout }, ["abc"])) ∧
    (hasTraceNamed { data := [choropleth_ucn_trace_of [] true,
                              tombadasTraceOf [⟨some "abc", none, 1, 2⟩]],
                     layout := callbackLayout } "Árvores Tombadas" = true) ∧
    containsSubstringCI "abc" "." = false ∧
    searchActive (some ".") = true ∧
    pyStrip "." = "." :=
  ⟨by decide, by decide, by decide, by decide, by decide⟩

/-- C9: the update routine is a pure function of its inputs — two
invocations with equal inputs return equal outputs. -/
theorem c9_deterministic (df : List TombRow) (censo : List CensoRow)
    (ucn : List UcnRow) (tr₁ tr₂ : Trigger) (st₁ st₂ : Option String)
    (sel₁ sel₂ : List String) (cf₁ cf₂ : Figure)
    (so₁ so₂ : List SpeciesOption) (htr : tr₁ = tr₂) (hst : st₁ = st₂)
    (hsel : sel₁ = sel₂) (hcf : cf₁ = cf₂) (hso : so₁ = so₂) :
    update_mapa_camadas df censo ucn tr₁ st₁ sel₁ cf₁ so₁ =
      update_mapa_camadas df censo ucn tr₂ st₂ sel₂ cf₂ so₂ := by
  subst htr
  subst hst
  subst hsel
  subst hcf
  subst hso
  rfl

/-- Witness for C9 at a concrete repeated invocation. -/
theorem c9_witness :
    update_mapa_camadas [⟨some "abc", none, 1, 2⟩] [] []
        Trigger.filtroEspecie (some "b") ["abc"] (initial_map_figure []) [] =
      update_mapa_camadas [⟨some "abc", none, 1, 2⟩] [] []
        Trigger.filtroEspecie (some "b") ["abc"] (initial_map_figure []) [] :=
  c9_deterministic [⟨some "abc", none, 1, 2⟩] [] [] Trigger.filtroEspecie
    Trigger.filtroEspecie (some "b") (some "b") ["abc"] ["abc"]
    (initial_map_figure []) (initial_map_figure []) [] [] rfl rfl rfl rfl rfl

/-- C10: the three tables loaded at process start are left unchanged by
every invocation of the callback: the state threaded through the
state-passing form of the callback is returned as it came in, each table
preserved. -/
theorem c10_tables_unmodified (st : ProcState) (trigger : Trigger)
    (search_term : Option String) (selected_species : List String)
    (current_figure : Figure) (species_options : List SpeciesOption) :
    (update_mapa_camadas_state st trigger search_term selected_species
        current_figure species_options).1 = st ∧
    (update_mapa_camadas_state st trigger search_term selected_species
        current_figure species_options).1.df = st.df ∧
    (update_mapa_camadas_state st trigger search_term selected_species
        current_figure species_options).1.censo = st.censo ∧
    (update_mapa_camadas_state st trigger search_term selected_species
        current_figure species_options).1.ucn = st.ucn :=
  ⟨rfl, rfl, rfl, rfl⟩

end GestaoInformacao
